import Mathlib

/-!
Shallow embedding of the IsaacSimPython bindings
(`src/bindings/{webrtc_client,rest_client,simulation_app,environment}.py`).

External effects (socket opens/closes, HTTP responses, process launches)
are passed in as explicit oracle values; Python exceptions raised by an
external call are modelled with `Except` (the value before the raise is
the state the object keeps, since the assignment never ran).  Functions
whose Python bodies catch every exception are total Lean functions.
-/

/-- A JSON object restricted to the string-valued fields the bindings use:
an association list from keys to string payloads. -/
abbrev Dict := List (String × String)

/-- Python's `'k' in d` for a dict. -/
def Dict.hasKey (d : Dict) (k : String) : Bool :=
  d.any (fun p => p.1 == k)

/-! ## WebRTCClient (`src/bindings/webrtc_client.py`) -/

/-- State of `WebRTCClient`.  The websocket handle is opaque (a `Nat` id);
`none` is Python `None`.  Callbacks are opaque ids: the session only
stores and invokes them. -/
structure WebRTCClient where
  host : String
  port : Nat
  websocket : Option Nat
  is_connected : Bool
  on_frame_callback : Option Nat
  on_audio_callback : Option Nat
deriving DecidableEq, Repr

/-- `WebRTCClient.__init__`: starts disconnected with no callbacks. -/
def WebRTCClient.init (host : String) (port : Nat) : WebRTCClient :=
  { host := host, port := port, websocket := none, is_connected := false,
    on_frame_callback := none, on_audio_callback := none }

/-- `WebRTCClient.connect`.  The oracle `res` is the outcome of
`websockets.connect`: `some w` is a fresh handle, `none` means it raised.
On success the handle is assigned (replacing any previous one) and
`is_connected` is set; on failure the handle assignment never ran, so the
old handle is kept, and the handler sets `is_connected = False`. -/
def WebRTCClient.connect (c : WebRTCClient) (res : Option Nat) :
    WebRTCClient × Bool :=
  match res with
  | some w => ({ c with websocket := some w, is_connected := true }, true)
  | none => ({ c with is_connected := false }, false)

/-- `WebRTCClient.disconnect`.  `closeRaises` tells whether
`websocket.close()` raises; if it does, the exception propagates and the
fields keep their old values.  Otherwise the handle is cleared and
`is_connected` reset. -/
def WebRTCClient.disconnect (c : WebRTCClient) (closeRaises : Bool) :
    WebRTCClient × Except String Unit :=
  match c.websocket with
  | some _ =>
      if closeRaises then (c, .error "close failed")
      else ({ c with websocket := none, is_connected := false }, .ok ())
  | none => ({ c with is_connected := false }, .ok ())

/-- `WebRTCClient.send_message`: returns the list of messages actually
handed to `websocket.send` (empty when the connection guard fails).  A
raise inside `send` is caught and only logged, so `sendRaises` changes
nothing observable and the client state is never mutated. -/
def WebRTCClient.send_message (c : WebRTCClient) (message : Dict)
    (sendRaises : Bool) : List Dict :=
  if !c.is_connected || c.websocket.isNone then []
  else
    let _ := sendRaises
    [message]

/-- An inbound streaming message: either non-JSON (`json.loads` raises)
or a decoded object with the fields the dispatcher reads. -/
structure MsgData where
  type : Option String
  frame : Option String
  audio : Option String
  status : Option String
deriving DecidableEq, Repr

inductive InMsg
  | malformed
  | msg (data : MsgData)
deriving DecidableEq, Repr

/-- A consumer invocation observed during the receive loop. -/
inductive CbEvent
  | frame (payload : Option String)
  | audio (payload : Option String)
deriving DecidableEq, Repr

/-- How the `async for` iteration over the websocket ended:
a `ConnectionClosed` raise, some other raise, or normal exhaustion. -/
inductive RecvEnd
  | iterClosed
  | iterError (msg : String)
  | iterDone
deriving DecidableEq, Repr

/-- `WebRTCClient._handle_message`: dispatch on `data.get('type')`.
`frame`/`audio` invoke the registered consumer, if any, with
`data.get('frame')` / `data.get('audio')`; `status` is only logged;
anything else is logged at debug level. -/
def WebRTCClient.handle_message (c : WebRTCClient) (data : MsgData) :
    List CbEvent :=
  let message_type := data.type
  if message_type == some "frame" then
    if c.on_frame_callback.isSome then [.frame data.frame] else []
  else if message_type == some "audio" then
    if c.on_audio_callback.isSome then [.audio data.audio] else []
  else if message_type == some "status" then []
  else []

/-- `WebRTCClient.receive_messages`: if the connection guard fails,
return immediately.  Otherwise handle each received message (malformed
ones are logged and skipped, per-message handler exceptions are caught),
then the iteration ends as `ending` says: a `ConnectionClosed` raise
resets `is_connected`; any other raise is only logged, leaving the
state untouched; normal exhaustion also leaves the state untouched. -/
def WebRTCClient.receive_messages (c : WebRTCClient) (msgs : List InMsg)
    (ending : RecvEnd) : WebRTCClient × List CbEvent :=
  if !c.is_connected || c.websocket.isNone then (c, [])
  else
    let events := (msgs.map (fun m =>
      match m with
      | .malformed => []
      | .msg data => c.handle_message data)).flatten
    match ending with
    | .iterClosed => ({ c with is_connected := false }, events)
    | .iterError _ => (c, events)
    | .iterDone => (c, events)

/-- `WebRTCClient.set_frame_callback`. -/
def WebRTCClient.set_frame_callback (c : WebRTCClient) (callback : Nat) :
    WebRTCClient :=
  { c with on_frame_callback := some callback }

/-- `WebRTCClient.set_audio_callback`. -/
def WebRTCClient.set_audio_callback (c : WebRTCClient) (callback : Nat) :
    WebRTCClient :=
  { c with on_audio_callback := some callback }

/-- The `{'type': 'start_streaming', 'format': 'webrtc'}` control
message sent by `start_streaming`. -/
def start_streaming_message : Dict :=
  [("type", "start_streaming"), ("format", "webrtc")]

/-- The `{'type': 'stop_streaming'}` control message. -/
def stop_streaming_message : Dict :=
  [("type", "stop_streaming")]

/-- `WebRTCClient.start_streaming`: connect first if not connected,
returning `false` if that fails; otherwise send the begin-streaming
message and return `true` (send failures are caught inside
`send_message`).  Also returns the messages handed to the transport. -/
def WebRTCClient.start_streaming (c : WebRTCClient) (res : Option Nat)
    (sendRaises : Bool) : WebRTCClient × Bool × List Dict :=
  if !c.is_connected then
    match c.connect res with
    | (c', false) => (c', false, [])
    | (c', true) =>
        (c', true, c'.send_message start_streaming_message sendRaises)
  else (c, true, c.send_message start_streaming_message sendRaises)

/-- `WebRTCClient.stop_streaming`: sends the end-streaming message only
when connected; never changes the connection state. -/
def WebRTCClient.stop_streaming (c : WebRTCClient) (sendRaises : Bool) :
    WebRTCClient × List Dict :=
  if c.is_connected then
    (c, c.send_message stop_streaming_message sendRaises)
  else (c, [])

/-- The connection invariant: whenever `is_connected` holds, the
websocket handle is present. -/
def WebRTCClient.wf (c : WebRTCClient) : Bool :=
  !c.is_connected || c.websocket.isSome

/-- One public operation of the streaming client, with its oracle
parameters. -/
inductive WebRTCClient.Op
  | connect (res : Option Nat)
  | disconnect (closeRaises : Bool)
  | send_message (message : Dict) (sendRaises : Bool)
  | receive_messages (msgs : List InMsg) (ending : RecvEnd)
  | start_streaming (res : Option Nat) (sendRaises : Bool)
  | stop_streaming (sendRaises : Bool)
  | set_frame_callback (callback : Nat)
  | set_audio_callback (callback : Nat)

/-- The state reached after one operation (results projected away). -/
def WebRTCClient.step (c : WebRTCClient) (op : WebRTCClient.Op) :
    WebRTCClient :=
  match op with
  | .connect res => (c.connect res).1
  | .disconnect r => (c.disconnect r).1
  | .send_message m r => let _ := c.send_message m r; c
  | .receive_messages msgs ending => (c.receive_messages msgs ending).1
  | .start_streaming res r => (c.start_streaming res r).1
  | .stop_streaming r => (c.stop_streaming r).1
  | .set_frame_callback cb => c.set_frame_callback cb
  | .set_audio_callback cb => c.set_audio_callback cb

/-! ## RESTClient (`src/bindings/rest_client.py`) -/

/-- State of `RESTClient`.  `session` is the opaque `aiohttp`
session handle (`none` is Python `None`). -/
structure RESTClient where
  host : String
  port : Nat
  session : Option Nat
deriving DecidableEq, Repr

/-- `RESTClient.__init__`. -/
def RESTClient.init (host : String) (port : Nat) : RESTClient :=
  { host := host, port := port, session := none }

/-- `RESTClient.connect`: allocates a session if absent.  Creating an
`aiohttp.ClientSession` is a purely local allocation (no I/O), so it is
modelled as infallible; `h` is the fresh handle it yields. -/
def RESTClient.connect (c : RESTClient) (h : Nat) : RESTClient :=
  if c.session.isNone then { c with session := some h } else c

/-- `RESTClient.disconnect`: closes and clears the session if present.
`closeRaises` tells whether `session.close()` raises; if it does, the
exception propagates and the session field keeps its old value. -/
def RESTClient.disconnect (c : RESTClient) (closeRaises : Bool) :
    RESTClient × Except String Unit :=
  match c.session with
  | some _ =>
      if closeRaises then (c, .error "close failed")
      else ({ c with session := none }, .ok ())
  | none => (c, .ok ())

/-- The outcome of one HTTP round trip: a response with a status code
and decoded JSON body, or an exception raised during the request. -/
inductive HttpResponse
  | response (status : Nat) (body : Dict)
  | exception (msg : String)
deriving DecidableEq, Repr

/-- `RESTClient._make_request`: lazily connects, then issues the call.
A 200 response returns the decoded body; any other status returns
`{'error': 'HTTP <status>'}`; a raise during the request (caught by the
`except` clause) returns `{'error': str(e)}`. -/
def RESTClient._make_request (c : RESTClient) (method endpoint : String)
    (data : Option Dict) (h : Nat) (resp : HttpResponse) :
    RESTClient × Dict :=
  let _ := method
  let _ := endpoint
  let _ := data
  let c := if c.session.isNone then c.connect h else c
  match resp with
  | .response status body =>
      if status == 200 then (c, body)
      else (c, [("error", "HTTP " ++ toString status)])
  | .exception e => (c, [("error", e)])

/-- `RESTClient.start_simulation`: `POST /simulation/start` with
`config or {}`. -/
def RESTClient.start_simulation (c : RESTClient) (config : Option Dict)
    (h : Nat) (resp : HttpResponse) : RESTClient × Dict :=
  c._make_request "POST" "/simulation/start" (some (config.getD [])) h resp

/-- `RESTClient.stop_simulation`: `POST /simulation/stop`. -/
def RESTClient.stop_simulation (c : RESTClient) (h : Nat)
    (resp : HttpResponse) : RESTClient × Dict :=
  c._make_request "POST" "/simulation/stop" none h resp

/-! ## SimulationApp (`src/bindings/simulation_app.py`) -/

/-- State of `SimulationApp`: the launched process handle (opaque pid)
and the running flag.  Path/environment-variable setup from `__init__`
has no bearing on the state machine and is omitted. -/
structure SimulationApp where
  process : Option Nat
  is_running : Bool
deriving DecidableEq, Repr

/-- `SimulationApp.__init__`. -/
def SimulationApp.init : SimulationApp :=
  { process := none, is_running := false }

/-- Oracles consumed by `SimulationApp.start`:
`pgrep` is the outcome of `subprocess.run(['pgrep', '-f', 'isaac-sim'])`
(`.ok rc` its return code, `.error` a raise); `launch` is the outcome of
`subprocess.Popen` (`.ok pid` or a raise); `poll` is `process.poll()`
after the settle sleep (`none` = still alive, `some code` = exited). -/
structure StartEnv where
  pgrep : Except String Int
  launch : Except String Nat
  poll : Option Int
deriving Repr

/-- `SimulationApp._is_isaac_running`: true iff `pgrep` succeeded with
return code 0; any raise is caught and reported as not running. -/
def SimulationApp._is_isaac_running (env : StartEnv) : Bool :=
  match env.pgrep with
  | .ok rc => rc == 0
  | .error _ => false

/-- The externally observable actions of `SimulationApp.start`, in
order: the out-of-band `pgrep` check, the `Popen` launch, the fixed
`time.sleep(2)` settle wait, the single `poll()` liveness probe. -/
inductive StartStep
  | checkExternal
  | launch
  | settle
  | poll
deriving DecidableEq, Repr

/-- `SimulationApp.start`: no-op success when already running; adopt an
externally detected instance without launching; otherwise launch, wait
the settle interval, probe liveness once, and succeed iff the process is
still alive.  A raise from `Popen` is caught and turned into `false`. -/
def SimulationApp.start (a : SimulationApp) (env : StartEnv) :
    SimulationApp × Bool × List StartStep :=
  if a.is_running then (a, true, [])
  else if SimulationApp._is_isaac_running env then
    ({ a with is_running := true }, true, [.checkExternal])
  else
    match env.launch with
    | .error _ => (a, false, [.checkExternal, .launch])
    | .ok pid =>
        let a := { a with process := some pid }
        match env.poll with
        | none =>
            ({ a with is_running := true }, true,
             [.checkExternal, .launch, .settle, .poll])
        | some _ =>
            (a, false, [.checkExternal, .launch, .settle, .poll])

/-- `SimulationApp.stop`: terminate and clear the process if present,
then reset `is_running`.  `terminateRaises` tells whether
`process.terminate()`/`wait()` raises; if it does, the exception
propagates and the fields keep their old values. -/
def SimulationApp.stop (a : SimulationApp) (terminateRaises : Bool) :
    SimulationApp × Except String Unit :=
  match a.process with
  | some _ =>
      if terminateRaises then (a, .error "terminate failed")
      else ({ a with process := none, is_running := false }, .ok ())
  | none => ({ a with is_running := false }, .ok ())

/-! ## IsaacSimEnvironment (`src/bindings/environment.py`) -/

/-- State of `IsaacSimEnvironment`.  The constructor always builds the
three sub-components (they are never `None` on a constructed instance),
so the fields are plain values and the `if self.<component>:` guards in
the Python code are always taken. -/
structure IsaacSimEnvironment where
  simulation_app : SimulationApp
  webrtc_client : WebRTCClient
  rest_client : RESTClient
  is_initialized : Bool
deriving DecidableEq, Repr

/-- `IsaacSimEnvironment.__init__` with the resolved configuration
values (defaults: host "3.239.124.24", webrtc_port 8211,
rest_port 3009). -/
def IsaacSimEnvironment.init (host : String) (webrtc_port rest_port : Nat) :
    IsaacSimEnvironment :=
  { simulation_app := SimulationApp.init,
    webrtc_client := WebRTCClient.init host webrtc_port,
    rest_client := RESTClient.init host rest_port,
    is_initialized := false }

/-- Oracles consumed by one `initialize()` run. -/
structure InitEnv where
  sim : StartEnv
  webrtcConnect : Option Nat
  sessionHandle : Nat
deriving Repr

/-- The sub-initialisations `initialize()` actually attempts, in
order. -/
inductive InitStep
  | procStart
  | streamConnect
  | controlConnect
deriving DecidableEq, Repr

/-- `IsaacSimEnvironment.initialize`: run `simulation_app.start()` and
abort with `false` if it fails; then attempt `webrtc_client.connect()`
(a failure is only a logged warning); then `rest_client.connect()`;
then set `is_initialized` and return `true`.  Every sub-call of the
`try` body catches its own exceptions, so the outer `except` that
converts an unexpected raise into a `false` return is unreachable in
the model and `initialize` is a total function.  The returned trace
records which sub-initialisations were attempted. -/
def IsaacSimEnvironment.initialize (e : IsaacSimEnvironment)
    (env : InitEnv) : IsaacSimEnvironment × Bool × List InitStep :=
  let (sa, ok, _) := e.simulation_app.start env.sim
  let e1 := { e with simulation_app := sa }
  if !ok then (e1, false, [.procStart])
  else
    let (wc, _) := e1.webrtc_client.connect env.webrtcConnect
    let e2 := { e1 with webrtc_client := wc }
    let e3 := { e2 with rest_client := e2.rest_client.connect env.sessionHandle }
    ({ e3 with is_initialized := true }, true,
     [.procStart, .streamConnect, .controlConnect])

/-- Oracles consumed by one `cleanup()` run: whether each underlying
close/terminate call raises. -/
structure CleanupEnv where
  wsClose : Bool
  sessionClose : Bool
  procTerminate : Bool
deriving DecidableEq, Repr

/-- The teardown steps `cleanup()` actually attempts, in order. -/
inductive CleanStep
  | streamDisc
  | controlDisc
  | procStop
deriving DecidableEq, Repr

/-- `IsaacSimEnvironment.cleanup`: one `try` block attempts
`webrtc_client.disconnect()`, `rest_client.disconnect()`,
`simulation_app.stop()`, and finally `is_initialized = False`; the
single outer `except` catches a raise from any step, so a raise skips
every later step (including the flag reset) but `cleanup` itself never
raises.  The returned trace records which steps were attempted. -/
def IsaacSimEnvironment.cleanup (e : IsaacSimEnvironment)
    (env : CleanupEnv) : IsaacSimEnvironment × List CleanStep :=
  match e.webrtc_client.disconnect env.wsClose with
  | (w, .error _) => ({ e with webrtc_client := w }, [.streamDisc])
  | (w, .ok _) =>
    let e1 := { e with webrtc_client := w }
    match e1.rest_client.disconnect env.sessionClose with
    | (r, .error _) =>
        ({ e1 with rest_client := r }, [.streamDisc, .controlDisc])
    | (r, .ok _) =>
      let e2 := { e1 with rest_client := r }
      match e2.simulation_app.stop env.procTerminate with
      | (s, .error _) =>
          ({ e2 with simulation_app := s },
           [.streamDisc, .controlDisc, .procStop])
      | (s, .ok _) =>
          ({ e2 with simulation_app := s, is_initialized := false },
           [.streamDisc, .controlDisc, .procStop])

/-- `IsaacSimEnvironment.start_simulation`: lazily `initialize()` when
not yet initialized, returning `false` if that fails; then delegate to
`rest_client.start_simulation` and report success iff the result has no
`'error'` key. -/
def IsaacSimEnvironment.start_simulation (e : IsaacSimEnvironment)
    (config : Option Dict) (ienv : InitEnv) (h : Nat)
    (resp : HttpResponse) : IsaacSimEnvironment × Bool :=
  if !e.is_initialized then
    match IsaacSimEnvironment.initialize e ienv with
    | (e', false, _) => (e', false)
    | (e', true, _) =>
        let (r, result) := e'.rest_client.start_simulation config h resp
        ({ e' with rest_client := r }, !result.hasKey "error")
  else
    let (r, result) := e.rest_client.start_simulation config h resp
    ({ e with rest_client := r }, !result.hasKey "error")

/-- `IsaacSimEnvironment.stop_simulation`: delegates directly to
`rest_client.stop_simulation` (there is no initialization check in this
method) and reports success iff the result has no `'error'` key. -/
def IsaacSimEnvironment.stop_simulation (e : IsaacSimEnvironment)
    (h : Nat) (resp : HttpResponse) : IsaacSimEnvironment × Bool :=
  let (r, result) := e.rest_client.stop_simulation h resp
  ({ e with rest_client := r }, !result.hasKey "error")

/-! ## Concrete instances used by witnesses and counterexamples -/

/-- A streaming client that is connected, with transport handle 1. -/
def connectedClient : WebRTCClient :=
  { host := "localhost", port := 8211, websocket := some 1,
    is_connected := true, on_frame_callback := none,
    on_audio_callback := none }

/-- A connected streaming client with both consumers registered. -/
def dispatchClient : WebRTCClient :=
  { connectedClient with
    on_frame_callback := some 10
    on_audio_callback := some 11 }

/-- A freshly constructed orchestrator: nothing running or connected. -/
def freshEnv : IsaacSimEnvironment :=
  IsaacSimEnvironment.init "localhost" 8211 3009

/-- An orchestrator in the fully initialized state: process running,
streaming transport open, control session allocated. -/
def readyEnv : IsaacSimEnvironment :=
  { simulation_app := { process := some 42, is_running := true },
    webrtc_client := connectedClient,
    rest_client := { host := "localhost", port := 3009, session := some 2 },
    is_initialized := true }

/-- Oracles for an initialization run whose launched process exits
immediately (the single liveness probe sees an exit code). -/
def exitEnv : InitEnv :=
  { sim := { pgrep := .ok 1, launch := .ok 42, poll := some 1 },
    webrtcConnect := some 1, sessionHandle := 2 }

/-- Oracles for an initialization run whose process launch succeeds but
whose streaming connect raises. -/
def streamFailEnv : InitEnv :=
  { sim := { pgrep := .ok 1, launch := .ok 42, poll := none },
    webrtcConnect := none, sessionHandle := 2 }

/-- A 200 response whose body carries no error key. -/
def okResponse : HttpResponse := .response 200 [("status", "ok")]

/-! ## Theorems -/

/-- The invariant `wf` is preserved by every single operation of the
streaming client. -/
theorem WebRTCClient.wf_step (c : WebRTCClient) (op : WebRTCClient.Op)
    (h : c.wf = true) : (c.step op).wf = true := by
  cases op with
  | connect res =>
      cases res <;> simp [step, connect, wf]
  | disconnect r =>
      simp only [step, disconnect]
      cases hw : c.websocket with
      | none => simp [wf]
      | some w =>
          cases r
          · simp [wf]
          · simpa [wf] using h
  | send_message m r => simpa [step] using h
  | receive_messages msgs ending =>
      simp only [step, receive_messages]
      by_cases hg : (!c.is_connected || c.websocket.isNone) = true
      · simpa [hg] using h
      · cases ending <;> simp [hg, wf] <;> simpa [wf] using h
  | start_streaming res r =>
      simp only [step, start_streaming]
      by_cases hc : c.is_connected
      · simpa [hc] using h
      · cases res <;> simp [hc, connect, wf]
  | stop_streaming r =>
      simp only [step, stop_streaming]
      by_cases hc : c.is_connected <;> simpa [hc] using h
  | set_frame_callback cb => simpa [step, set_frame_callback, wf] using h
  | set_audio_callback cb => simpa [step, set_audio_callback, wf] using h

/-- The invariant `wf` is preserved by every sequence of operations. -/
theorem WebRTCClient.wf_foldl (ops : List WebRTCClient.Op)
    (c : WebRTCClient) (h : c.wf = true) :
    (ops.foldl WebRTCClient.step c).wf = true := by
  induction ops generalizing c with
  | nil => exact h
  | cons op ops ih => exact ih _ (c.wf_step op h)

/-- Claim C10: starting from a freshly constructed streaming client,
after every sequence of its public operations (connect, disconnect,
send_message, receive_messages, start_streaming, stop_streaming and the
callback setters, under arbitrary transport oracles), whenever
`is_connected` is true the underlying websocket handle is not `None`.
The empty sequence covers the initial state. -/
theorem webrtc_connected_has_transport (host : String) (port : Nat)
    (ops : List WebRTCClient.Op)
    (h : (ops.foldl WebRTCClient.step (WebRTCClient.init host port)).is_connected = true) :
    (ops.foldl WebRTCClient.step (WebRTCClient.init host port)).websocket ≠ none := by
  have hwf := WebRTCClient.wf_foldl ops (WebRTCClient.init host port) rfl
  simp only [WebRTCClient.wf, h, Bool.not_true, Bool.false_or,
    Option.isSome_iff_ne_none] at hwf
  exact hwf

/-- Witness for C10: after one successful connect the client is
connected and the theorem yields a present transport handle. -/
theorem webrtc_connected_has_transport_witness :
    (([WebRTCClient.Op.connect (some 5)].foldl WebRTCClient.step
        (WebRTCClient.init "localhost" 8211)).is_connected = true)
    ∧ (([WebRTCClient.Op.connect (some 5)].foldl WebRTCClient.step
        (WebRTCClient.init "localhost" 8211)).websocket ≠ none) :=
  ⟨rfl, webrtc_connected_has_transport "localhost" 8211
    [WebRTCClient.Op.connect (some 5)] rfl⟩

/-- Claim C3 counterexample: the receive loop of a connected client ends
with a transport error other than the closed-transport condition
(the generic `except Exception` branch), yet `is_connected` is still
true afterwards — the claim says both error cases leave the session
Disconnected. -/
theorem receive_error_leaves_connected_counterexample :
    connectedClient.is_connected = true
    ∧ connectedClient.websocket = some 1
    ∧ (connectedClient.receive_messages [] (.iterError "read failed")).1.is_connected = true :=
  ⟨rfl, rfl, rfl⟩

/-- Claim C3 (amended): when the receive loop of a connected client with
a present transport ends, the closed-transport condition leaves the
session Disconnected, but any other transport error (and normal
exhaustion) only logs and leaves `is_connected` unchanged, i.e. still
true. -/
theorem receive_loop_end_state (c : WebRTCClient) (msgs : List InMsg)
    (emsg : String) (hc : c.is_connected = true)
    (hw : c.websocket.isNone = false) :
    ((c.receive_messages msgs .iterClosed).1.is_connected = false)
    ∧ ((c.receive_messages msgs (.iterError emsg)).1.is_connected = true)
    ∧ ((c.receive_messages msgs .iterDone).1.is_connected = true) := by
  simp [WebRTCClient.receive_messages, hc, hw]

/-- Witness for the amended C3 at a concrete connected client. -/
theorem receive_loop_end_state_witness :
    connectedClient.is_connected = true
    ∧ (connectedClient.receive_messages [] .iterClosed).1.is_connected = false :=
  ⟨rfl, (receive_loop_end_state connectedClient [] "read failed" rfl rfl).1⟩

/-- Claim C4 counterexample: calling connect() while already Connected
(transport handle 1) opens a new transport and replaces the handle
(now 2) — the claim says the existing transport is left unchanged. -/
theorem connect_replaces_handle_counterexample :
    connectedClient.is_connected = true
    ∧ connectedClient.websocket = some 1
    ∧ (connectedClient.connect (some 2)).1.websocket = some 2 :=
  ⟨rfl, rfl, rfl⟩

/-- Claim C4 (amended): connect() is not idempotent while Connected —
a successful re-connect replaces the transport handle (without closing
the old one) and a failing re-connect marks the session Disconnected
while keeping the stale handle; a second consecutive start_streaming()
however does not invoke connect() and leaves the client state,
transport included, entirely unchanged. -/
theorem connect_not_idempotent_start_streaming_is (c : WebRTCClient)
    (w : Nat) (res : Option Nat) (sendRaises : Bool)
    (hc : c.is_connected = true) :
    ((c.connect (some w)).1.websocket = some w)
    ∧ ((c.connect (some w)).2 = true)
    ∧ ((c.connect none).1.is_connected = false)
    ∧ ((c.connect none).1.websocket = c.websocket)
    ∧ ((c.start_streaming res sendRaises).1 = c)
    ∧ ((c.start_streaming res sendRaises).2.1 = true) := by
  simp [WebRTCClient.connect, WebRTCClient.start_streaming, hc]

/-- Witness for the amended C4 at a concrete connected client. -/
theorem connect_not_idempotent_start_streaming_is_witness :
    connectedClient.is_connected = true
    ∧ (connectedClient.start_streaming none false).1 = connectedClient :=
  ⟨rfl,
   (connect_not_idempotent_start_streaming_is connectedClient 2 none false
      rfl).2.2.2.2.1⟩

/-- Claim C7: message dispatch.  A message tagged frame invokes exactly
the registered frame consumer with its payload, a message tagged audio
invokes exactly the registered audio consumer, and messages tagged
status or any other tag invoke no consumer; consequently the inbound
sequence frame, audio, status, unknown produces exactly one frame
invocation followed by one audio invocation, whatever way the loop
ends. -/
theorem dispatch_frame_audio (c : WebRTCClient) (p q s t : Option String)
    (other : String) (ending : RecvEnd)
    (hc : c.is_connected = true) (hw : c.websocket.isNone = false)
    (hf : c.on_frame_callback.isSome = true)
    (ha : c.on_audio_callback.isSome = true)
    (h1 : other ≠ "frame") (h2 : other ≠ "audio") :
    (c.handle_message { type := some "frame", frame := p, audio := none, status := none } = [.frame p])
    ∧ (c.handle_message { type := some "audio", frame := none, audio := q, status := none } = [.audio q])
    ∧ (c.handle_message { type := some "status", frame := none, audio := none, status := s } = [])
    ∧ (c.handle_message { type := some other, frame := none, audio := none, status := t } = [])
    ∧ ((c.receive_messages
          [.msg { type := some "frame", frame := p, audio := none, status := none },
           .msg { type := some "audio", frame := none, audio := q, status := none },
           .msg { type := some "status", frame := none, audio := none, status := s },
           .msg { type := some other, frame := none, audio := none, status := t }]
          ending).2 = [.frame p, .audio q]) := by
  have hm1 : c.handle_message { type := some "frame", frame := p, audio := none, status := none } = [.frame p] := by
    simp [WebRTCClient.handle_message, hf]
  have hm2 : c.handle_message { type := some "audio", frame := none, audio := q, status := none } = [.audio q] := by
    simp [WebRTCClient.handle_message, ha]
  have hm3 : c.handle_message { type := some "status", frame := none, audio := none, status := s } = [] := by
    simp [WebRTCClient.handle_message]
  have hm4 : c.handle_message { type := some other, frame := none, audio := none, status := t } = [] := by
    simp [WebRTCClient.handle_message, h1, h2]
  refine ⟨hm1, hm2, hm3, hm4, ?_⟩
  cases ending <;>
    simp [WebRTCClient.receive_messages, hc, hw, hm1, hm2, hm3, hm4]

/-- Witness for C7: the four-message sequence on a concrete client with
both consumers registered fires the frame consumer once with its
payload, then the audio consumer once. -/
theorem dispatch_frame_audio_witness :
    dispatchClient.on_frame_callback.isSome = true
    ∧ ((dispatchClient.receive_messages
          [.msg { type := some "frame", frame := some "F", audio := none, status := none },
           .msg { type := some "audio", frame := none, audio := some "A", status := none },
           .msg { type := some "status", frame := none, audio := none, status := some "ok" },
           .msg { type := some "unknown", frame := none, audio := none, status := none }]
          .iterDone).2 = [.frame (some "F"), .audio (some "A")]) :=
  ⟨rfl,
   (dispatch_frame_audio dispatchClient (some "F") (some "A") (some "ok")
      none "unknown" .iterDone rfl rfl rfl rfl (by decide) (by decide)).2.2.2.2⟩

/-- Claim C8: start_streaming() returns false exactly when called while
Disconnected and the implicit connect fails; in every other case the
begin-streaming control message is handed to the transport and the call
returns true — also when the underlying send raises (`sendRaises` is
arbitrary).  The hypothesis is the connection invariant `wf`. -/
theorem start_streaming_result (c : WebRTCClient) (res : Option Nat)
    (sendRaises : Bool) (h : c.wf = true) :
    ((c.start_streaming res sendRaises).2.1 = (c.is_connected || res.isSome))
    ∧ ((c.start_streaming res sendRaises).2.2
        = if c.is_connected || res.isSome then [start_streaming_message] else []) := by
  by_cases hc : c.is_connected
  · have hw : c.websocket.isNone = false := by
      simp [WebRTCClient.wf, hc] at h
      cases hx : c.websocket with
      | none => rw [hx] at h; simp at h
      | some w => rfl
    simp [WebRTCClient.start_streaming, WebRTCClient.send_message, hc, hw]
  · cases res <;>
      simp [WebRTCClient.start_streaming, WebRTCClient.connect,
        WebRTCClient.send_message, hc]

/-- Witness for C8: a disconnected fresh client whose connect succeeds
and whose send raises still returns true and hands the begin-streaming
message to the transport. -/
theorem start_streaming_result_witness :
    (WebRTCClient.init "localhost" 8211).wf = true
    ∧ ((WebRTCClient.init "localhost" 8211).start_streaming (some 7) true).2.1 = true := by
  refine ⟨rfl, ?_⟩
  have h := start_streaming_result (WebRTCClient.init "localhost" 8211)
    (some 7) true rfl
  simpa using h.1

/-- Claim C6: for every control-plane request, a non-200 response
status yields exactly the dict with the single entry
error = HTTP followed by the status, and a raise during the request
yields exactly the dict with the single entry error = the raise text;
both results contain the error key.  The embedding of `_make_request`
is a total function, so the call never raises across its public
boundary. -/
theorem make_request_error_forms (c : RESTClient)
    (method endpoint : String) (data : Option Dict) (h : Nat)
    (s : Nat) (body : Dict) (emsg : String) (hs : s ≠ 200) :
    ((c._make_request method endpoint data h (.response s body)).2
       = [("error", "HTTP " ++ toString s)])
    ∧ ((c._make_request method endpoint data h (.response s body)).2.hasKey "error" = true)
    ∧ ((c._make_request method endpoint data h (.exception emsg)).2
       = [("error", emsg)])
    ∧ ((c._make_request method endpoint data h (.exception emsg)).2.hasKey "error" = true) := by
  simp [RESTClient._make_request, Dict.hasKey, hs]

/-- Witness for C6 at a simulated 500 response and a simulated
transport raise on a fresh client. -/
theorem make_request_error_forms_witness :
    (500 ≠ 200)
    ∧ ((RESTClient.init "localhost" 3009)._make_request "GET" "/status"
        none 1 (.response 500 [])).2 = [("error", "HTTP 500")] :=
  ⟨by decide,
   by
     have h := make_request_error_forms (RESTClient.init "localhost" 3009)
       "GET" "/status" none 1 500 [] "Cannot connect to host" (by decide)
     simpa using h.1⟩

/-- Claim C9: ProcessController start(): a no-op success when already
running; adoption of an externally detected instance without launching;
otherwise one launch, the settle wait, exactly one liveness probe, and
false without retry when the process already exited, true when it is
alive; a raise from the launch is caught and becomes false.  The trace
lists the external actions actually performed, in order. -/
theorem simulation_start_cases (a : SimulationApp) (env : StartEnv)
    (pid : Nat) (code : Int) :
    (a.is_running = true → a.start env = (a, true, []))
    ∧ (a.is_running = false → SimulationApp._is_isaac_running env = true →
        a.start env = ({ a with is_running := true }, true, [.checkExternal]))
    ∧ (a.is_running = false → SimulationApp._is_isaac_running env = false →
        env.launch.toOption = none →
        a.start env = (a, false, [.checkExternal, .launch]))
    ∧ (a.is_running = false → SimulationApp._is_isaac_running env = false →
        env.launch = .ok pid → env.poll = none →
        a.start env = ({ a with process := some pid, is_running := true },
                       true, [.checkExternal, .launch, .settle, .poll]))
    ∧ (a.is_running = false → SimulationApp._is_isaac_running env = false →
        env.launch = .ok pid → env.poll = some code →
        a.start env = ({ a with process := some pid }, false,
                       [.checkExternal, .launch, .settle, .poll])) := by
  refine ⟨?_, ?_, ?_, ?_, ?_⟩
  · intro hr
    simp [SimulationApp.start, hr]
  · intro hr hd
    simp [SimulationApp.start, hr, hd]
  · intro hr hd hl
    cases he : env.launch with
    | ok v => rw [he] at hl; simp [Except.toOption] at hl
    | error e => simp [SimulationApp.start, hr, hd, he]
  · intro hr hd hl hp
    simp [SimulationApp.start, hr, hd, hl, hp]
  · intro hr hd hl hp
    simp [SimulationApp.start, hr, hd, hl, hp]

/-- Witness for C9: a fresh controller with a successful launch whose
single probe sees a live process adopts the running state with the full
trace; with an immediate exit it fails without retry. -/
theorem simulation_start_cases_witness :
    (SimulationApp.init.start
       { pgrep := .ok 1, launch := .ok 42, poll := none }
     = ({ process := some 42, is_running := true }, true,
        [.checkExternal, .launch, .settle, .poll]))
    ∧ (SimulationApp.init.start
         { pgrep := .ok 1, launch := .ok 42, poll := some 1 }
       = ({ process := some 42, is_running := false }, false,
          [.checkExternal, .launch, .settle, .poll])) :=
  ⟨(simulation_start_cases SimulationApp.init
      { pgrep := .ok 1, launch := .ok 42, poll := none } 42 1).2.2.2.1
      rfl (by decide) rfl rfl,
   (simulation_start_cases SimulationApp.init
      { pgrep := .ok 1, launch := .ok 42, poll := some 1 } 42 1).2.2.2.2
      rfl (by decide) rfl rfl⟩

/-- Claim C5: initialize() runs the process start first; a failure there
aborts with false, attempting neither the streaming nor the
control-plane connection and leaving both clients untouched; when the
process start succeeds, initialization continues through the streaming
connect (whose failure is only a warning: `env.webrtcConnect` is
arbitrary, including `none`) and the control-plane connect, sets
`is_initialized`, and returns true.  The embedding is a total function:
every sub-call catches its own exceptions, so the outer `except` is
unreachable and initialize() never raises. -/
theorem initialization_order (e : IsaacSimEnvironment) (env : InitEnv) :
    ((e.simulation_app.start env.sim).2.1 = false →
      (( IsaacSimEnvironment.initialize e env).2.1 = false
       ∧ ( IsaacSimEnvironment.initialize e env).2.2 = [.procStart]
       ∧ ( IsaacSimEnvironment.initialize e env).1.is_initialized = e.is_initialized
       ∧ ( IsaacSimEnvironment.initialize e env).1.webrtc_client = e.webrtc_client
       ∧ ( IsaacSimEnvironment.initialize e env).1.rest_client = e.rest_client))
    ∧ ((e.simulation_app.start env.sim).2.1 = true →
      (( IsaacSimEnvironment.initialize e env).2.1 = true
       ∧ ( IsaacSimEnvironment.initialize e env).1.is_initialized = true
       ∧ ( IsaacSimEnvironment.initialize e env).2.2
           = [.procStart, .streamConnect, .controlConnect])) := by
  constructor
  · intro h0
    rcases hs : e.simulation_app.start env.sim with ⟨sa, ok, tr⟩
    rw [hs] at h0
    simp only at h0
    subst h0
    simp [ IsaacSimEnvironment.initialize, hs]
  · intro h0
    rcases hs : e.simulation_app.start env.sim with ⟨sa, ok, tr⟩
    rw [hs] at h0
    simp only at h0
    subst h0
    simp [ IsaacSimEnvironment.initialize, hs]

/-- Witness for C5: with a process that exits immediately after launch,
initialize() returns false having attempted only the process start;
with a live process and a failing streaming connect it still succeeds
and sets the flag. -/
theorem initialization_order_witness :
    (freshEnv.simulation_app.start exitEnv.sim).2.1 = false
    ∧ ( IsaacSimEnvironment.initialize freshEnv exitEnv).2.1 = false
    ∧ ( IsaacSimEnvironment.initialize freshEnv exitEnv).2.2 = [.procStart]
    ∧ (freshEnv.simulation_app.start streamFailEnv.sim).2.1 = true
    ∧ ( IsaacSimEnvironment.initialize freshEnv streamFailEnv).2.1 = true
    ∧ ( IsaacSimEnvironment.initialize freshEnv streamFailEnv).1.is_initialized = true := by
  have h1 := (initialization_order freshEnv exitEnv).1 (by decide)
  have h2 := (initialization_order freshEnv streamFailEnv).2 (by decide)
  exact ⟨by decide, h1.1, h1.2.1, by decide, h2.1, h2.2.1⟩

/-- Claim C1 counterexample: on a fully initialized orchestrator whose
streaming disconnect raises (the websocket close fails), cleanup()
stops after the first step — the control-plane disconnect and the
process stop are skipped (their state is untouched) and
`is_initialized` is still true afterwards.  The claim says the steps
are independently guarded and the flag always ends false. -/
theorem cleanup_single_guard_counterexample :
    readyEnv.is_initialized = true
    ∧ (readyEnv.cleanup { wsClose := true, sessionClose := false, procTerminate := false }).1.is_initialized = true
    ∧ (readyEnv.cleanup { wsClose := true, sessionClose := false, procTerminate := false }).2 = [.streamDisc]
    ∧ (readyEnv.cleanup { wsClose := true, sessionClose := false, procTerminate := false }).1.rest_client = readyEnv.rest_client
    ∧ (readyEnv.cleanup { wsClose := true, sessionClose := false, procTerminate := false }).1.simulation_app = readyEnv.simulation_app :=
  ⟨rfl, rfl, rfl, rfl, rfl⟩

/-- Claim C1 (amended): cleanup() attempts the streaming disconnect,
then the control-plane disconnect, then the process stop inside one
shared guard; an exception raised by a step skips the later steps and
the final flag reset, though cleanup itself never raises (the embedding
is total).  Whenever no step raises — in particular when called
repeatedly, or before any initialize() — all three steps run and
cleanup terminates with `is_initialized = false`. -/
theorem cleanup_no_raise_clears_flag (e : IsaacSimEnvironment)
    (env : CleanupEnv) (h1 : env.wsClose = false)
    (h2 : env.sessionClose = false) (h3 : env.procTerminate = false) :
    ((e.cleanup env).1.is_initialized = false)
    ∧ ((e.cleanup env).2 = [.streamDisc, .controlDisc, .procStop])
    ∧ (((e.cleanup env).1.cleanup env).1.is_initialized = false) := by
  cases hw : e.webrtc_client.websocket <;>
  cases hr : e.rest_client.session <;>
  cases hp : e.simulation_app.process <;>
  simp [IsaacSimEnvironment.cleanup, WebRTCClient.disconnect,
    RESTClient.disconnect, SimulationApp.stop, h1, h2, h3, hw, hr, hp]

/-- Witness for the amended C1: cleanup of the initialized orchestrator
with no failing closes clears the flag. -/
theorem cleanup_no_raise_clears_flag_witness :
    ({ wsClose := false, sessionClose := false, procTerminate := false } : CleanupEnv).wsClose = false
    ∧ (readyEnv.cleanup { wsClose := false, sessionClose := false, procTerminate := false }).1.is_initialized = false :=
  ⟨rfl,
   (cleanup_no_raise_clears_flag readyEnv
      { wsClose := false, sessionClose := false, procTerminate := false }
      rfl rfl rfl).1⟩

/-- Claim C2 counterexample: stop_simulation() called on a freshly
constructed, uninitialized orchestrator succeeds (the control-plane
mock returns a body without an error key) while `is_initialized` is
still false and the process controller untouched afterwards — so no
lazy initialize() ran, contradicting the claim that stop_simulation()
first initializes (which would either return false or leave
`is_initialized = true`). -/
theorem stop_simulation_no_lazy_init_counterexample :
    freshEnv.is_initialized = false
    ∧ (freshEnv.stop_simulation 1 okResponse).2 = true
    ∧ (freshEnv.stop_simulation 1 okResponse).1.is_initialized = false
    ∧ (freshEnv.stop_simulation 1 okResponse).1.simulation_app.is_running = false :=
  ⟨rfl, rfl, rfl, rfl⟩

/-- Claim C2 (amended): on an uninitialized orchestrator,
start_simulation() first lazily runs initialize() — returning false
when that fails — and then delegates to the control-plane client,
interpreting the absence of an error key in the result as success;
stop_simulation() never initializes: it delegates directly to the
control-plane client with the same error-key interpretation, leaving
`is_initialized`, the process controller and the streaming client
unchanged. -/
theorem lazy_init_asymmetry (e : IsaacSimEnvironment)
    (config : Option Dict) (ienv : InitEnv) (h : Nat)
    (resp : HttpResponse) (hu : e.is_initialized = false) :
    ((e.start_simulation config ienv h resp).2
       = (( IsaacSimEnvironment.initialize e ienv).2.1
          && !(( IsaacSimEnvironment.initialize e ienv).1.rest_client.start_simulation config h resp).2.hasKey "error"))
    ∧ ((e.stop_simulation h resp).2
       = !(e.rest_client.stop_simulation h resp).2.hasKey "error")
    ∧ ((e.stop_simulation h resp).1.is_initialized = false)
    ∧ ((e.stop_simulation h resp).1.simulation_app = e.simulation_app)
    ∧ ((e.stop_simulation h resp).1.webrtc_client = e.webrtc_client) := by
  refine ⟨?_, ?_, ?_, ?_, ?_⟩
  · rcases hi : IsaacSimEnvironment.initialize e ienv with ⟨e', ok, tr⟩
    cases ok with
    | false => simp [IsaacSimEnvironment.start_simulation, hu, hi]
    | true =>
        rcases hm : e'.rest_client.start_simulation config h resp with ⟨r, result⟩
        simp [IsaacSimEnvironment.start_simulation, hu, hi, hm]
  · rcases hm : e.rest_client.stop_simulation h resp with ⟨r, result⟩
    simp [IsaacSimEnvironment.stop_simulation, hm]
  · rcases hm : e.rest_client.stop_simulation h resp with ⟨r, result⟩
    simp [IsaacSimEnvironment.stop_simulation, hm, hu]
  · rcases hm : e.rest_client.stop_simulation h resp with ⟨r, result⟩
    simp [IsaacSimEnvironment.stop_simulation, hm]
  · rcases hm : e.rest_client.stop_simulation h resp with ⟨r, result⟩
    simp [IsaacSimEnvironment.stop_simulation, hm]

/-- Witness for the amended C2 on the fresh orchestrator. -/
theorem lazy_init_asymmetry_witness :
    freshEnv.is_initialized = false
    ∧ (freshEnv.stop_simulation 1 okResponse).1.is_initialized = false :=
  ⟨rfl,
   (lazy_init_asymmetry freshEnv none streamFailEnv 1 okResponse rfl).2.2.1⟩
